import Mathlib

/-!
Shallow embedding of the traffic-monitor simulation control plane.

The Python sources embedded here are:
* `backend/app/services/sumo_service.py` — the simulation controller state
  machine (start/step/pause/resume/stop/set-phase over a global
  `SimulationState`);
* `backend/app/services/osm_service.py` — the geometric reconciliation of
  map intersections onto simulation traffic-light identifiers;
* `backend/app/services/deployment_service.py` — the deployment registry and
  AI-control arbitration;
* `backend/app/api/routes/control.py` — the manual set-phase boundary with
  its arbitration veto;
* `backend/app/ml/environment.py` — the RL environment adapter.

Modelling conventions: Python floats are modelled as exact rationals (the
claims under scrutiny only involve exactly representable values); calls into
the external TraCI engine are modelled by explicit oracle records whose
fields say what each engine call would return, with `Option`/`Bool` fields
marking the calls that may raise `TraCIException`; a Python function that
may raise returns `Except` (the paired state component is the state the
function leaves behind, mutated or not, when it raises).
-/

deriving instance DecidableEq for Except

namespace TrafficMonitor

/-- The fields of `SimulationState` in `sumo_service.py` (the `_lock` is the
mutual-exclusion device; each embedded operation is one critical section). -/
structure SimState where
  is_running : Bool
  is_paused : Bool
  current_step : Nat
  network_id : Option String
  network_path : Option String
  deriving Repr, DecidableEq

/-- `SimulationState.__init__` / `SimulationState.reset`. -/
def SimState.init : SimState :=
  { is_running := false
    is_paused := false
    current_step := 0
    network_id := none
    network_path := none }

/-- The distinct `RuntimeError` messages raised by `sumo_service.py`. -/
inductive SimError where
  | sumoUnavailable
  | alreadyRunning
  | networkFileNotFound
  | startFailed
  | noSimulationRunning
  | simulationPaused
  | stepFailed
  | setPhaseFailed
  deriving Repr, DecidableEq

/-- Oracle for the engine calls made by `start_simulation`:
whether the `traci` module is importable (`SUMO_AVAILABLE`), whether the
network file exists on disk, and whether `traci.start` succeeds. -/
structure StartEnv where
  sumo_available : Bool
  network_file_exists : Bool
  traci_start_succeeds : Bool
  deriving Repr, DecidableEq

/-- What `start_simulation` returns on success
(`{"status": "started", "network_id": ..., "step": 0}`). -/
structure StartResult where
  network_id : String
  step : Nat
  deriving Repr, DecidableEq

/-- `start_simulation(network_path, network_id, gui=False)` from
`sumo_service.py`.  Note the parameter list: there is no `routes_path`
parameter.  The state fields are mutated only after `traci.start` returns,
so every error path leaves the state untouched. -/
def start_simulation (env : StartEnv) (s : SimState)
    (network_path network_id : String) (gui : Bool) :
    SimState × Except SimError StartResult :=
  -- `_check_sumo_available()`
  if !env.sumo_available then (s, .error .sumoUnavailable)
  -- `if _state.is_running: raise RuntimeError("Simulation already running")`
  else if s.is_running then (s, .error .alreadyRunning)
  -- `if not network_file.exists(): raise RuntimeError(...)`
  else if !env.network_file_exists then (s, .error .networkFileNotFound)
  -- `traci.start(sumo_cmd)`; `gui` only selects the binary name
  else if !env.traci_start_succeeds then (s, .error .startFailed)
  else
    let _ := gui
    ({ is_running := true
       is_paused := false
       current_step := 0
       network_id := some network_id
       network_path := some network_path },
     .ok { network_id := network_id, step := 0 })

/-- One vehicle as seen by the metric queries inside `step()`. -/
structure Vehicle where
  waiting_time : ℚ
  speed : ℚ
  deriving Repr, DecidableEq

/-- Oracle for the engine calls made by `step()`: availability, whether
`traci.simulationStep()` succeeds, whether the subsequent metric queries
(`getIDList` / `getWaitingTime` / `getSpeed`) all succeed, and the vehicle
list they report when they do. -/
structure StepEnv where
  sumo_available : Bool
  tick_succeeds : Bool
  metrics_succeed : Bool
  vehicles : List Vehicle
  deriving Repr, DecidableEq

/-- The metrics dict returned by a successful `step()`. -/
structure StepResult where
  step : Nat
  total_vehicles : Nat
  total_wait_time : ℚ
  average_wait_time : ℚ
  average_speed : ℚ
  deriving Repr, DecidableEq

/-- `step()` from `sumo_service.py`.  The source increments
`_state.current_step` immediately after `traci.simulationStep()` and before
the metric-collection loop; a `TraCIException` raised by the metric queries
is re-raised as `RuntimeError` with the increment already applied. -/
def step (env : StepEnv) (s : SimState) : SimState × Except SimError StepResult :=
  if !env.sumo_available then (s, .error .sumoUnavailable)
  else if !s.is_running then (s, .error .noSimulationRunning)
  else if s.is_paused then (s, .error .simulationPaused)
  -- `traci.simulationStep()` raises: nothing has been mutated yet
  else if !env.tick_succeeds then (s, .error .stepFailed)
  else
    -- `_state.current_step += 1`
    let s' := { s with current_step := s.current_step + 1 }
    -- metric collection; a failure here raises with the increment in place
    if !env.metrics_succeed then (s', .error .stepFailed)
    else
      let n := env.vehicles.length
      let total_wait := (env.vehicles.map (·.waiting_time)).sum
      let total_speed := (env.vehicles.map (·.speed)).sum
      (s', .ok
        { step := s'.current_step
          total_vehicles := n
          total_wait_time := total_wait
          average_wait_time := if 0 < n then total_wait / (n : ℚ) else 0
          average_speed := if 0 < n then total_speed / (n : ℚ) else 0 })

/-- `{"status": "paused"/"running", "step": ...}` from pause/resume. -/
structure PauseResult where
  step : Nat
  deriving Repr, DecidableEq

/-- `pause_simulation()` from `sumo_service.py`.  It makes no engine call at
all (it does not even call `_check_sumo_available`): the embedding therefore
takes no engine oracle.  The only gate is `_state.is_running`. -/
def pause_simulation (s : SimState) : SimState × Except SimError PauseResult :=
  if !s.is_running then (s, .error .noSimulationRunning)
  else ({ s with is_paused := true }, .ok { step := s.current_step })

/-- `resume_simulation()` from `sumo_service.py`; engine-free like pause,
gated only on `_state.is_running`. -/
def resume_simulation (s : SimState) : SimState × Except SimError PauseResult :=
  if !s.is_running then (s, .error .noSimulationRunning)
  else ({ s with is_paused := false }, .ok { step := s.current_step })

/-- `{"status": "stopped", "final_step": ...}`. -/
structure StopResult where
  final_step : Nat
  deriving Repr, DecidableEq

/-- `stop_simulation()` from `sumo_service.py`.  `final_step` is read first;
`traci.close()` is attempted only when a run is active and any exception it
raises is caught and ignored (`except Exception: logger.warning(...)`), so
the `close_raises` oracle cannot influence the outcome; `_state.reset()`
then runs unconditionally.  The function never raises. -/
def stop_simulation (close_raises : Bool) (s : SimState) : SimState × StopResult :=
  let final_step := s.current_step
  let _ := close_raises
  (SimState.init, { final_step := final_step })

/-- Oracle for `set_traffic_light_phase`: availability, whether the pair of
`setPhase`/`getPhase` calls succeeds, and the phase `getPhase` reports. -/
structure PhaseEnv where
  sumo_available : Bool
  set_phase_succeeds : Bool
  reported_phase : Nat
  deriving Repr, DecidableEq

/-- `{"tl_id": ..., "phase": ...}`. -/
structure PhaseResult where
  tl_id : String
  phase : Nat
  deriving Repr, DecidableEq

/-- `set_traffic_light_phase(tl_id, phase_index)` from `sumo_service.py`.
It never mutates `_state`. -/
def set_traffic_light_phase (env : PhaseEnv) (s : SimState)
    (tl_id : String) (phase_index : Nat) :
    SimState × Except SimError PhaseResult :=
  if !env.sumo_available then (s, .error .sumoUnavailable)
  else if !s.is_running then (s, .error .noSimulationRunning)
  else if !env.set_phase_succeeds then (s, .error .setPhaseFailed)
  else
    let _ := phase_index
    (s, .ok { tl_id := tl_id, phase := env.reported_phase })

/-- The status string computed by `get_status()`. -/
inductive RunStatus where
  | idle
  | running
  | paused
  deriving Repr, DecidableEq

/-- `get_status()` from `sumo_service.py`: a pure read. -/
def get_status (s : SimState) : RunStatus × Nat × Option String :=
  (if s.is_running then (if s.is_paused then .paused else .running) else .idle,
   s.current_step, s.network_id)

/-- The mutating operations of the simulation controller, each packaged with
the engine-oracle data its engine calls consume. -/
inductive SimOp where
  | opStart (env : StartEnv) (network_path network_id : String) (gui : Bool)
  | opStep (env : StepEnv)
  | opPause
  | opResume
  | opStop (close_raises : Bool)
  | opSetPhase (env : PhaseEnv) (tl_id : String) (phase_index : Nat)

/-- The state left behind by one controller operation (whether or not the
operation raised). -/
def SimOp.apply : SimOp → SimState → SimState
  | .opStart env np nid gui, s => (start_simulation env s np nid gui).1
  | .opStep env, s => (step env s).1
  | .opPause, s => (pause_simulation s).1
  | .opResume, s => (resume_simulation s).1
  | .opStop cr, s => (stop_simulation cr s).1
  | .opSetPhase env tl ph, s => (set_traffic_light_phase env s tl ph).1

/-- Running a sequence of controller operations from a state. -/
def runSimOps (ops : List SimOp) (s : SimState) : SimState :=
  ops.foldl (fun t op => op.apply t) s

/-- States the process-wide controller can actually be in: reachable from
the freshly initialised `SimulationState` by some sequence of operations. -/
def ReachableSim (s : SimState) : Prop :=
  ∃ ops : List SimOp, runSimOps ops SimState.init = s

/-- Any state an operation leaves behind while not running is exactly the
freshly reset state: the only transitions out of `is_running = true` go
through `_state.reset()`, and while idle the error paths leave the state
untouched. -/
theorem simOp_apply_idle_inv (op : SimOp) (s : SimState)
    (h : s.is_running = false → s = SimState.init) :
    (op.apply s).is_running = false → op.apply s = SimState.init := by
  cases op with
  | opStart env np nid gui =>
      simp only [SimOp.apply, start_simulation]
      split
      · exact h
      · split
        · exact h
        · split
          · exact h
          · split
            · exact h
            · intro hr; simp at hr
  | opStep env =>
      simp only [SimOp.apply, step]
      split
      · exact h
      · split
        · exact h
        · split
          · exact h
          · split
            · exact h
            · split
              · intro hr; simp_all
              · intro hr; simp_all
  | opPause =>
      simp only [SimOp.apply, pause_simulation]
      split
      · exact h
      · intro hr; simp_all
  | opResume =>
      simp only [SimOp.apply, resume_simulation]
      split
      · exact h
      · intro hr; simp_all
  | opStop cr =>
      intro _
      simp [SimOp.apply, stop_simulation]
  | opSetPhase env tl ph =>
      simp only [SimOp.apply, set_traffic_light_phase]
      split
      · exact h
      · split
        · exact h
        · split
          · exact h
          · exact h

/-- The idle-implies-reset invariant is preserved by any operation
sequence. -/
theorem runSimOps_idle_inv (ops : List SimOp) (s : SimState)
    (h : s.is_running = false → s = SimState.init) :
    (runSimOps ops s).is_running = false → runSimOps ops s = SimState.init := by
  induction ops generalizing s with
  | nil => exact h
  | cons op rest ih =>
      exact ih (op.apply s) (simOp_apply_idle_inv op s h)

/-- Reachable invariant: a reachable controller state that is not running is
the reset state (so in particular its `current_step` is `0`). -/
theorem reachable_idle_is_init (s : SimState) (hs : ReachableSim s)
    (hr : s.is_running = false) : s = SimState.init := by
  obtain ⟨ops, hops⟩ := hs
  subst hops
  exact runSimOps_idle_inv ops SimState.init (fun _ => rfl) hr

/-- A successful `step()` leaves exactly the input state with
`current_step` incremented. -/
theorem step_ok_state (env : StepEnv) (s s1 : SimState) (r : StepResult)
    (h : step env s = (s1, Except.ok r)) :
    s1 = { s with current_step := s.current_step + 1 } := by
  by_cases h1 : env.sumo_available
  · by_cases h2 : s.is_running
    · by_cases h3 : s.is_paused
      · simp [step, h1, h2, h3] at h
      · by_cases h4 : env.tick_succeeds
        · by_cases h5 : env.metrics_succeed
          · simp [step, h1, h2, h3, h4, h5] at h
            rcases h with ⟨h', -⟩
            rw [← h']
            simp only [Bool.not_eq_true] at h3
            simp [h2, h3]
          · simp [step, h1, h2, h3, h4, h5] at h
        · simp [step, h1, h2, h3, h4] at h
    · simp [step, h1, h2] at h
  · simp [step, h1] at h

/-- A successful `start_simulation()` produces exactly the fresh running
state. -/
theorem start_ok_state (env : StartEnv) (s s0 : SimState)
    (np nid : String) (gui : Bool) (r : StartResult)
    (h : start_simulation env s np nid gui = (s0, Except.ok r)) :
    s0 = { is_running := true, is_paused := false, current_step := 0,
           network_id := some nid, network_path := some np } := by
  by_cases h1 : env.sumo_available
  · by_cases h2 : s.is_running
    · simp [start_simulation, h1, h2] at h
    · by_cases h3 : env.network_file_exists
      · by_cases h4 : env.traci_start_succeeds
        · simp [start_simulation, h1, h2, h3, h4] at h
          exact h.1.symm
        · simp [start_simulation, h1, h2, h3, h4] at h
      · simp [start_simulation, h1, h2, h3] at h
  · simp [start_simulation, h1] at h

/-- A sequence of `step()` calls that must all succeed: `none` when any
of them raises. -/
def steps_ok : List StepEnv → SimState → Option SimState
  | [], s => some s
  | e :: es, s =>
    match step e s with
    | (s', Except.ok _) => steps_ok es s'
    | (_, Except.error _) => none

/-- N successful steps advance `current_step` by exactly N. -/
theorem steps_ok_count (es : List StepEnv) (s s' : SimState)
    (h : steps_ok es s = some s') :
    s'.current_step = s.current_step + es.length := by
  induction es generalizing s with
  | nil =>
      simp only [steps_ok, Option.some.injEq] at h
      subst h; simp
  | cons e es ih =>
      simp only [steps_ok] at h
      rcases hse : step e s with ⟨s1, r⟩
      rw [hse] at h
      cases r with
      | error err => simp at h
      | ok out =>
          simp only at h
          have hcount := ih s1 h
          have hstate := step_ok_state e s s1 out hse
          subst hstate
          simp only [List.length_cons]
          simp at hcount
          omega

/-- C3 counterexample input: `pause_simulation` on an already-paused run and
`resume_simulation` on a running, un-paused run both succeed — the source
functions gate only on `_state.is_running`, never on `_state.is_paused`. -/
theorem pause_resume_gating_cex :
    (pause_simulation ⟨true, true, 3, some "net", some "p"⟩).2 =
      Except.ok { step := 3 } ∧
    (resume_simulation ⟨true, false, 3, some "net", some "p"⟩).2 =
      Except.ok { step := 3 } := by
  exact ⟨rfl, rfl⟩

/-- C3 (amended): `pause()`/`resume()` fail exactly when no run is active
(IDLE); whenever a run is active — paused or not — they succeed, and a
success only sets/clears the paused flag, leaving every other state field
unchanged and making no engine call (the embedded functions consume no
engine oracle, mirroring the engine-free source bodies). -/
theorem pause_resume_gating_amended (s : SimState) :
    (s.is_running = false →
      pause_simulation s = (s, Except.error .noSimulationRunning) ∧
      resume_simulation s = (s, Except.error .noSimulationRunning)) ∧
    (s.is_running = true →
      pause_simulation s =
        ({ s with is_paused := true }, Except.ok { step := s.current_step }) ∧
      resume_simulation s =
        ({ s with is_paused := false }, Except.ok { step := s.current_step })) := by
  constructor <;> intro hr <;>
    simp [pause_simulation, resume_simulation, hr]

/-- C3 witness: the amended theorem applied at an idle state and at a
concrete paused run. -/
theorem pause_resume_gating_amended_witness :
    pause_simulation SimState.init =
      (SimState.init, Except.error .noSimulationRunning) ∧
    resume_simulation ⟨true, true, 2, none, none⟩ =
      (⟨true, false, 2, none, none⟩, Except.ok { step := 2 }) := by
  exact ⟨((pause_resume_gating_amended SimState.init).1 rfl).1,
         ((pause_resume_gating_amended ⟨true, true, 2, none, none⟩).2 rfl).2⟩

/-- C2 counterexample input: a `step()` on a running state in which
`traci.simulationStep()` succeeds but the metric queries raise.  The call
raises (`RuntimeError("Simulation step failed")`) yet `current_step` has
moved from 0 to 1 — the failed mutating operation did not leave the state
at its pre-call value. -/
theorem step_error_increments_step_cex :
    step { sumo_available := true, tick_succeeds := true,
           metrics_succeed := false, vehicles := [] }
        ⟨true, false, 0, some "net", some "p"⟩ =
      (⟨true, false, 1, some "net", some "p"⟩, Except.error .stepFailed) := by
  exact rfl

/-- C2 (amended): a `start()` while a run is active fails with the conflict
error leaving the state exactly as before; a failing `step()` leaves
`current_step` unchanged unless the failure occurs in metric collection
after a successful engine tick, in which case it raises with `current_step`
already incremented by one. -/
theorem mutating_ops_atomicity_amended :
    (∀ (env : StartEnv) (s : SimState) (np nid : String) (gui : Bool),
      env.sumo_available = true → s.is_running = true →
      start_simulation env s np nid gui = (s, Except.error .alreadyRunning)) ∧
    (∀ (env : StepEnv) (s : SimState) (r : SimError),
      env.metrics_succeed = true → (step env s).2 = Except.error r →
      (step env s).1 = s) ∧
    (∀ (env : StepEnv) (s : SimState),
      env.sumo_available = true → s.is_running = true → s.is_paused = false →
      env.tick_succeeds = true → env.metrics_succeed = false →
      step env s = ({ s with current_step := s.current_step + 1 },
                    Except.error .stepFailed)) := by
  refine ⟨?_, ?_, ?_⟩
  · intro env s np nid gui h1 h2
    simp [start_simulation, h1, h2]
  · intro env s r hm herr
    by_cases h1 : env.sumo_available
    · by_cases h2 : s.is_running
      · by_cases h3 : s.is_paused
        · simp [step, h1, h2, h3]
        · by_cases h4 : env.tick_succeeds
          · simp [step, h1, h2, h3, h4, hm] at herr
          · simp [step, h1, h2, h3, h4]
      · simp [step, h1, h2]
    · simp [step, h1]
  · intro env s h1 h2 h3 h4 h5
    simp [step, h1, h2, h3, h4, h5]

/-- C2 witness: the amended theorem applied at concrete states — a start
during a run, a failing step on an idle controller, and a metrics-phase
failure. -/
theorem mutating_ops_atomicity_amended_witness :
    start_simulation ⟨true, true, true⟩
        ⟨true, false, 1, some "n", some "p"⟩ "p2" "n2" false =
      (⟨true, false, 1, some "n", some "p"⟩, Except.error .alreadyRunning) ∧
    (step ⟨true, false, true, []⟩ SimState.init).1 = SimState.init ∧
    step ⟨true, true, false, []⟩ ⟨true, false, 0, some "n", some "p"⟩ =
      (⟨true, false, 1, some "n", some "p"⟩, Except.error .stepFailed) := by
  refine ⟨mutating_ops_atomicity_amended.1 _ _ _ _ _ rfl rfl, ?_,
          mutating_ops_atomicity_amended.2.2 _ _ rfl rfl rfl rfl rfl⟩
  exact mutating_ops_atomicity_amended.2.1 ⟨true, false, true, []⟩
    SimState.init .noSimulationRunning rfl rfl

/-- C9: `stop()` is idempotent and unconditional — on any reachable idle
state it succeeds with `final_step = 0`; after a successful `start()`
followed by N successful `step()` calls it reports `final_step = N` and
resets the state; and its outcome is independent of whether the
engine-close call raises (the exception is swallowed). -/
theorem stop_idempotent_robust :
    (∀ (cr : Bool) (s : SimState), ReachableSim s → s.is_running = false →
      stop_simulation cr s = (SimState.init, { final_step := 0 })) ∧
    (∀ (cr : Bool) (senv : StartEnv) (np nid : String) (gui : Bool)
        (s s0 : SimState) (r : StartResult) (es : List StepEnv)
        (s1 : SimState),
      start_simulation senv s np nid gui = (s0, Except.ok r) →
      steps_ok es s0 = some s1 →
      stop_simulation cr s1 = (SimState.init, { final_step := es.length })) ∧
    (∀ (cr cr' : Bool) (s : SimState),
      stop_simulation cr s = stop_simulation cr' s) := by
  refine ⟨?_, ?_, ?_⟩
  · intro cr s hreach hidle
    rw [reachable_idle_is_init s hreach hidle]
    rfl
  · intro cr senv np nid gui s s0 r es s1 hstart hsteps
    have h0 := start_ok_state senv s s0 np nid gui r hstart
    have hc := steps_ok_count es s0 s1 hsteps
    rw [h0] at hc
    simp only [stop_simulation]
    simp at hc
    rw [hc]
  · intro cr cr' s
    rfl

/-- C9 witness: stop on the fresh idle state reports 0; stop after a
concrete start plus two successful steps reports 2, with a raising
engine-close call. -/
theorem stop_idempotent_robust_witness :
    stop_simulation true SimState.init =
      (SimState.init, { final_step := 0 }) ∧
    stop_simulation true ⟨true, false, 2, some "n", some "p"⟩ =
      (SimState.init, { final_step := 2 }) := by
  constructor
  · exact stop_idempotent_robust.1 true SimState.init ⟨[], rfl⟩ rfl
  · exact stop_idempotent_robust.2.1 true ⟨true, true, true⟩ "p" "n" false
      SimState.init ⟨true, false, 0, some "n", some "p"⟩
      { network_id := "n", step := 0 }
      [⟨true, true, true, []⟩, ⟨true, true, true, []⟩]
      ⟨true, false, 2, some "n", some "p"⟩ rfl rfl

/-- The Python exception kinds raised by `TrafficLightEnv` methods. -/
inductive EnvError where
  | typeError
  | valueError
  | runtimeError
  deriving Repr, DecidableEq

/-- The parameter list of `def start_simulation(network_path: str,
network_id: str, gui: bool = False)` in `sumo_service.py`. -/
def start_simulation_param_names : List String :=
  ["network_path", "network_id", "gui"]

/-- The keyword arguments of the call
`sumo_service.start_simulation(network_path=..., network_id=...,
routes_path=..., gui=...)` in `TrafficLightEnv.reset`
(`environment.py:199-204`). -/
def reset_start_call_keywords : List String :=
  ["network_path", "network_id", "routes_path", "gui"]

/-- Python keyword-call binding: a call succeeds in binding only when every
keyword argument names a parameter of the callee; otherwise CPython raises
`TypeError: ... got an unexpected keyword argument ...` before the callee's
body runs. -/
def keyword_call_binds (params kwargs : List String) : Bool :=
  kwargs.all (fun k => params.contains k)

/-- The constructor arguments of `TrafficLightEnv.__init__`. -/
structure EnvConfig where
  network_path : String
  network_id : String
  tl_id : String
  max_steps : Nat
  steps_per_action : Nat
  gui : Bool
  routes_path : Option String
  scenario : String
  deriving Repr, DecidableEq

/-- The mutable episode state of `TrafficLightEnv`. -/
structure EnvState where
  current_step : Nat
  prev_total_wait_time : ℚ
  controlled_lanes : List String
  num_phases : Nat
  is_initialized : Bool
  deriving Repr, DecidableEq

/-- `TrafficLightEnv.reset` from `environment.py`, up to its call into
`sumo_service.start_simulation`: it stops any active run, obtains a routes
file (the one supplied at construction, else one generated by
`route_service.generate_routes` for the configured scenario and seed —
here the oracle `generated_routes_path`), and then calls
`start_simulation(network_path=..., network_id=..., routes_path=...,
gui=...)`.  CPython binds those keywords against
`start_simulation_param_names` before the body runs; when binding fails the
call raises `TypeError` and the rest of `reset` (space initialisation,
counter reset, observation) is unreachable. -/
def TrafficLightEnv.reset (cfg : EnvConfig) (sim : SimState)
    (close_raises : Bool) (generated_routes_path : String)
    (senv : StartEnv) : SimState × Except EnvError Unit :=
  -- `if sumo_service.is_simulation_running(): sumo_service.stop_simulation()`
  let sim1 := if sim.is_running then (stop_simulation close_raises sim).1 else sim
  let routes_path := cfg.routes_path.getD generated_routes_path
  let _ := routes_path
  if keyword_call_binds start_simulation_param_names reset_start_call_keywords then
    -- would dispatch into `start_simulation` (dead: the binding check fails)
    match start_simulation senv sim1 cfg.network_path cfg.network_id cfg.gui with
    | (sim2, Except.ok _) => (sim2, Except.ok ())
    | (sim2, Except.error _) => (sim2, Except.error .runtimeError)
  else
    (sim1, Except.error .typeError)

/-- C1: evaluation at the failing input.  The keyword binding of the
`start_simulation` call inside `reset` fails (`routes_path` is not a
parameter of `start_simulation`), so a `reset` on an environment with a
supplied routes file and an active run first stops the run and then raises
`TypeError`: no fresh run is started, contradicting the claim that the run
ends up RUNNING with `current_step = 0`. -/
theorem reset_start_call_type_error :
    keyword_call_binds start_simulation_param_names reset_start_call_keywords
      = false ∧
    TrafficLightEnv.reset
        { network_path := "net.net.xml", network_id := "net", tl_id := "tl",
          max_steps := 3600, steps_per_action := 5, gui := false,
          routes_path := some "routes.rou.xml", scenario := "moderate" }
        ⟨true, false, 7, some "old", some "oldp"⟩ false "gen.rou.xml"
        ⟨true, true, true⟩ =
      (SimState.init, Except.error .typeError) := by
  exact ⟨rfl, rfl⟩

/-- `TrafficLightEnv._compute_reward`: negated change in total wait time,
scaled down by the fixed constant 10. -/
def compute_reward (prev_total_wait_time current_total_wait : ℚ) : ℚ :=
  -(current_total_wait - prev_total_wait_time) / 10

/-- The inner loop of `TrafficLightEnv.step`:
`for _ in range(steps_per_action): sumo_service.step(); self._current_step += 1`.
`k` carries `self._current_step`; each loop iteration consumes one engine
oracle; an engine failure (or an exhausted oracle list) aborts the loop with
the increments made so far.  Returns the simulation state, the updated
counter and whether all iterations succeeded. -/
def batch_steps : Nat → List StepEnv → SimState → Nat → (SimState × Nat) × Bool
  | 0, _, sim, k => ((sim, k), true)
  | _ + 1, [], sim, k => ((sim, k), false)
  | n + 1, e :: es, sim, k =>
    match step e sim with
    | (sim', Except.ok _) => batch_steps n es sim' (k + 1)
    | (sim', Except.error _) => ((sim', k), false)

/-- What `TrafficLightEnv.step` reports besides the observation. -/
structure EnvStepOut where
  reward : ℚ
  terminated : Bool
  truncated : Bool
  deriving Repr, DecidableEq

/-- `TrafficLightEnv.step(action)` from `environment.py`: validate the
action against `Discrete(num_phases)`, set the phase, advance the
controller by `steps_per_action` ticks, then compute the reward from the
oracle value `current_total_wait` (what `_compute_total_wait_time()`
returns after the batch), update `prev_total_wait_time`, and report
`terminated = False` and `truncated = current_step >= max_steps`. -/
def TrafficLightEnv.step (cfg : EnvConfig) (est : EnvState) (sim : SimState)
    (action : Nat) (penv : PhaseEnv) (stepEnvs : List StepEnv)
    (current_total_wait : ℚ) :
    (EnvState × SimState) × Except EnvError EnvStepOut :=
  if est.num_phases ≤ action then ((est, sim), Except.error .valueError)
  else
    match set_traffic_light_phase penv sim cfg.tl_id action with
    | (sim1, Except.error _) => ((est, sim1), Except.error .runtimeError)
    | (sim1, Except.ok _) =>
      match batch_steps cfg.steps_per_action stepEnvs sim1 est.current_step with
      | ((sim2, k), false) =>
          (({ est with current_step := k }, sim2), Except.error .runtimeError)
      | ((sim2, k), true) =>
          let reward := compute_reward est.prev_total_wait_time current_total_wait
          (({ est with current_step := k,
                       prev_total_wait_time := current_total_wait }, sim2),
           Except.ok { reward := reward, terminated := false,
                       truncated := decide (cfg.max_steps ≤ k) })

/-- C8: whenever the RL adapter's `step()` returns, its reward is
`-(current_wait - prev_total_wait_time) / 10` and `prev_total_wait_time`
has been updated to `current_wait`; in particular with
`prev_total_wait_time = 50` the reward is exactly `2` for a post-batch
total wait of `30` and exactly `-2` for `70`. -/
theorem env_step_reward_update :
    (∀ (cfg : EnvConfig) (est : EnvState) (sim : SimState) (action : Nat)
        (penv : PhaseEnv) (stepEnvs : List StepEnv) (ctw : ℚ)
        (est' : EnvState) (sim' : SimState) (out : EnvStepOut),
      TrafficLightEnv.step cfg est sim action penv stepEnvs ctw =
        ((est', sim'), Except.ok out) →
      out.reward = -(ctw - est.prev_total_wait_time) / 10 ∧
      est'.prev_total_wait_time = ctw) ∧
    TrafficLightEnv.step
        ⟨"p", "n", "tl", 3600, 1, false, none, "moderate"⟩
        ⟨0, 50, [], 4, true⟩ ⟨true, false, 0, some "n", some "p"⟩ 0
        ⟨true, true, 0⟩ [⟨true, true, true, []⟩] 30 =
      ((⟨1, 30, [], 4, true⟩, ⟨true, false, 1, some "n", some "p"⟩),
       Except.ok ⟨2, false, false⟩) ∧
    TrafficLightEnv.step
        ⟨"p", "n", "tl", 3600, 1, false, none, "moderate"⟩
        ⟨0, 50, [], 4, true⟩ ⟨true, false, 0, some "n", some "p"⟩ 0
        ⟨true, true, 0⟩ [⟨true, true, true, []⟩] 70 =
      ((⟨1, 70, [], 4, true⟩, ⟨true, false, 1, some "n", some "p"⟩),
       Except.ok ⟨-2, false, false⟩) := by
  refine ⟨?_,
    by simp only [TrafficLightEnv.step, set_traffic_light_phase, batch_steps,
                  step, compute_reward]; norm_num,
    by simp only [TrafficLightEnv.step, set_traffic_light_phase, batch_steps,
                  step, compute_reward]; norm_num⟩
  intro cfg est sim action penv stepEnvs ctw est' sim' out h
  unfold TrafficLightEnv.step at h
  split at h
  · simp at h
  · rcases hsp : set_traffic_light_phase penv sim cfg.tl_id action with ⟨sim1, rsp⟩
    rw [hsp] at h
    cases rsp with
    | error e => simp at h
    | ok pr =>
        simp only at h
        rcases hb : batch_steps cfg.steps_per_action stepEnvs sim1 est.current_step
          with ⟨⟨sim2, k⟩, allOk⟩
        rw [hb] at h
        cases allOk with
        | false => simp at h
        | true =>
            simp only [Prod.mk.injEq, Except.ok.injEq] at h
            obtain ⟨⟨he, -⟩, ho⟩ := h
            rw [← ho, ← he]
            simp [compute_reward]

/-- C8 witness: the general conjunct applied at a concrete successful
step with `prev_total_wait_time = 50` and post-batch wait `30`. -/
theorem env_step_reward_update_witness :
    (⟨2, false, false⟩ : EnvStepOut).reward = -((30 : ℚ) - 50) / 10 ∧
    (⟨1, 30, [], 4, true⟩ : EnvState).prev_total_wait_time = 30 :=
  env_step_reward_update.1
    ⟨"p", "n", "tl", 3600, 1, false, none, "moderate"⟩
    ⟨0, 50, [], 4, true⟩ ⟨true, false, 0, some "n", some "p"⟩ 0
    ⟨true, true, 0⟩ [⟨true, true, true, []⟩] 30
    ⟨1, 30, [], 4, true⟩ ⟨true, false, 1, some "n", some "p"⟩
    ⟨2, false, false⟩
    (by simp only [TrafficLightEnv.step, set_traffic_light_phase, batch_steps,
                   step, compute_reward]; norm_num)

/-- An intersection dict as produced by `extract_network()` (the fields
`_match_osm_to_sumo_traffic_lights` reads). -/
structure Intersection where
  id : String
  lat : ℚ
  lon : ℚ
  has_traffic_light : Bool
  deriving Repr, DecidableEq

/-- A traffic-light dict as produced by `parse_sumo_traffic_lights()` (the
fields the matcher reads: `id`, cartesian `x`, `y`). -/
structure SumoTL where
  id : String
  x : ℚ
  y : ℚ
  deriving Repr, DecidableEq

/-- A `west,south,east,north` boundary rectangle from the `location`
element of the SUMO network. -/
structure Boundary where
  west : ℚ
  south : ℚ
  east : ℚ
  north : ℚ
  deriving Repr, DecidableEq

/-- `COORD_MATCH_THRESHOLD_DEG = 0.001` from `osm_service.py`. -/
def COORD_MATCH_THRESHOLD_DEG : ℚ := 1 / 1000

/-- `lon_scale = (orig_east - orig_west) / (conv_east - conv_west) if
conv_east != conv_west else 1.0`. -/
def lon_scale (orig conv : Boundary) : ℚ :=
  if conv.east ≠ conv.west then (orig.east - orig.west) / (conv.east - conv.west)
  else 1

/-- `lat_scale`, symmetric to `lon_scale` on the south/north axis. -/
def lat_scale (orig conv : Boundary) : ℚ :=
  if conv.north ≠ conv.south then (orig.north - orig.south) / (conv.north - conv.south)
  else 1

/-- `approx_lon = orig_west + (sumo_x - conv_west) * lon_scale`. -/
def project_lon (orig conv : Boundary) (x : ℚ) : ℚ :=
  orig.west + (x - conv.west) * lon_scale orig conv

/-- `approx_lat = orig_south + (sumo_y - conv_south) * lat_scale`. -/
def project_lat (orig conv : Boundary) (y : ℚ) : ℚ :=
  orig.south + (y - conv.south) * lat_scale orig conv

/-- The squared Euclidean distance
`(int_lat - approx_lat)**2 + (int_lon - approx_lon)**2`.  The source takes
`math.sqrt` of this and compares with `<` (both against the running best
and against the 0.001 threshold); since the square root is strictly
monotone on non-negative reals, every comparison of square roots below is
replaced by the equivalent comparison of the squares (the threshold
becoming `0.001 * 0.001`). -/
def dist_sq (lat1 lon1 lat2 lon2 : ℚ) : ℚ :=
  (lat1 - lat2) * (lat1 - lat2) + (lon1 - lon2) * (lon1 - lon2)

/-- Python dict key membership `intersection["id"] in osm_to_sumo_map`,
over the association-list model of the (insertion-ordered, unique-key)
dict. -/
def key_mem (k : String) (m : List (String × String)) : Bool :=
  m.any (fun p => p.1 == k)

/-- The inner candidate loop of `_match_osm_to_sumo_traffic_lights`: walk
the filtered intersections in order, skip those whose id is already a key
of the map, and keep the strictly closest candidate seen so far (`None` /
`inf` start, so the first unskipped candidate is always taken; on ties the
earlier candidate wins because the comparison is strict). -/
def find_best (alat alon : ℚ) (matched : List (String × String)) :
    List Intersection → Option (Intersection × ℚ) → Option (Intersection × ℚ)
  | [], best => best
  | i :: rest, best =>
      if key_mem i.id matched then find_best alat alon matched rest best
      else
        let d := dist_sq i.lat i.lon alat alon
        let best' :=
          match best with
          | none => some (i, d)
          | some (bi, bd) => if d < bd then some (i, d) else some (bi, bd)
        find_best alat alon matched rest best'

/-- One iteration of the outer loop of `_match_osm_to_sumo_traffic_lights`:
project the SUMO light, search the candidates, and accept the best match
only if it exists and its distance beats the threshold
(`if best_match and best_distance < COORD_MATCH_THRESHOLD_DEG`). -/
def match_one (orig conv : Boundary) (cands : List Intersection)
    (acc : List (String × String)) (tl : SumoTL) : List (String × String) :=
  let alon := project_lon orig conv tl.x
  let alat := project_lat orig conv tl.y
  match find_best alat alon acc cands none with
  | some (best, bd) =>
      if bd < COORD_MATCH_THRESHOLD_DEG * COORD_MATCH_THRESHOLD_DEG then
        acc ++ [(best.id, tl.id)]
      else acc
  | none => acc

/-- `_match_osm_to_sumo_traffic_lights` from `osm_service.py`, after the
boundary metadata has been parsed into `orig`/`conv`: filter the
intersections flagged `has_traffic_light`, then greedily match each SUMO
traffic light in listing order. -/
def match_osm_to_sumo_traffic_lights (intersections : List Intersection)
    (sumo_traffic_lights : List SumoTL) (orig conv : Boundary) :
    List (String × String) :=
  let tl_intersections := intersections.filter (·.has_traffic_light)
  sumo_traffic_lights.foldl (match_one orig conv tl_intersections) []

/-- `key_mem` agrees with membership in the key projection. -/
theorem key_mem_false_iff (k : String) (m : List (String × String)) :
    key_mem k m = false ↔ k ∉ m.map Prod.fst := by
  rw [← Bool.not_eq_true]
  simp [key_mem, List.any_eq_true, beq_iff_eq, List.mem_map]

/-- Soundness of the candidate loop: a returned best is either the
accumulator that was passed in, or an unmatched candidate from the list
paired with its own squared distance. -/
theorem find_best_sound (alat alon : ℚ) (matched : List (String × String)) :
    ∀ (cands : List Intersection) (best : Option (Intersection × ℚ))
      (res : Intersection × ℚ),
      find_best alat alon matched cands best = some res →
      some res = best ∨
        (res.1 ∈ cands ∧ key_mem res.1.id matched = false ∧
         res.2 = dist_sq res.1.lat res.1.lon alat alon) := by
  intro cands
  induction cands with
  | nil => intro best res h; exact Or.inl h.symm
  | cons i rest ih =>
      intro best res h
      rw [find_best] at h
      split at h
      · rcases ih best res h with h' | ⟨hmem, hkey, hd⟩
        · exact Or.inl h'
        · exact Or.inr ⟨List.mem_cons_of_mem i hmem, hkey, hd⟩
      · next hkey =>
        rcases ih _ res h with h' | ⟨hmem, hkey', hd⟩
        · cases best with
          | none =>
              simp only [Option.some.injEq] at h'
              subst h'
              exact Or.inr ⟨List.mem_cons_self i rest, by simpa using hkey, rfl⟩
          | some b =>
              rcases b with ⟨bi, bd⟩
              by_cases hlt : dist_sq i.lat i.lon alat alon < bd
              · simp only [hlt, if_pos, Option.some.injEq] at h'
                subst h'
                exact Or.inr ⟨List.mem_cons_self i rest, by simpa using hkey, rfl⟩
              · simp only [hlt, if_neg, not_false_iff, Option.some.injEq] at h'
                exact Or.inl (by rw [← h'])
        · exact Or.inr ⟨List.mem_cons_of_mem i hmem, hkey', hd⟩

/-- Minimality of the candidate loop: the returned squared distance is at
most the squared distance of every unmatched candidate in the list, and at
most the distance carried by the incoming accumulator. -/
theorem find_best_min (alat alon : ℚ) (matched : List (String × String)) :
    ∀ (cands : List Intersection) (best : Option (Intersection × ℚ))
      (res : Intersection × ℚ),
      find_best alat alon matched cands best = some res →
      (∀ i ∈ cands, key_mem i.id matched = false →
        res.2 ≤ dist_sq i.lat i.lon alat alon) ∧
      (∀ bi bd, best = some (bi, bd) → res.2 ≤ bd) := by
  intro cands
  induction cands with
  | nil =>
      intro best res h
      refine ⟨by simp, ?_⟩
      intro bi bd hb
      rw [hb] at h
      simp only [find_best, Option.some.injEq] at h
      rw [← h]
  | cons i rest ih =>
      intro best res h
      rw [find_best] at h
      split at h
      · next hkey =>
        obtain ⟨h1, h2⟩ := ih best res h
        refine ⟨?_, h2⟩
        intro j hj hjkey
        rcases List.mem_cons.mp hj with rfl | hj'
        · rw [hkey] at hjkey; cases hjkey
        · exact h1 j hj' hjkey
      · next hkey =>
        obtain ⟨h1, h2⟩ := ih _ res h
        have hbest' : res.2 ≤ dist_sq i.lat i.lon alat alon := by
          cases best with
          | none => simpa using h2 i _ rfl
          | some b =>
              rcases b with ⟨bi, bd⟩
              by_cases hlt : dist_sq i.lat i.lon alat alon < bd
              · simp only [hlt, if_pos] at h2
                simpa using h2 i _ rfl
              · simp only [hlt, if_neg, not_false_iff] at h2
                exact le_trans (h2 bi bd rfl) (le_of_not_lt hlt)
        refine ⟨?_, ?_⟩
        · intro j hj hjkey
          rcases List.mem_cons.mp hj with rfl | hj'
          · exact hbest'
          · exact h1 j hj' hjkey
        · intro bi bd hb
          rw [hb] at h2
          by_cases hlt : dist_sq i.lat i.lon alat alon < bd
          · simp only [hlt, if_pos] at h2
            exact le_trans (by simpa using h2 i _ rfl) (le_of_lt hlt)
          · simp only [hlt, if_neg, not_false_iff] at h2
            exact h2 bi bd rfl

/-- One outer-loop iteration either leaves the map unchanged or appends a
single pair whose best match cleared the threshold test. -/
theorem match_one_eq_or (orig conv : Boundary) (cands : List Intersection)
    (acc : List (String × String)) (tl : SumoTL) :
    match_one orig conv cands acc tl = acc ∨
    ∃ b d, find_best (project_lat orig conv tl.y) (project_lon orig conv tl.x)
        acc cands none = some (b, d) ∧
      d < COORD_MATCH_THRESHOLD_DEG * COORD_MATCH_THRESHOLD_DEG ∧
      match_one orig conv cands acc tl = acc ++ [(b.id, tl.id)] := by
  simp only [match_one]
  rcases hf : find_best (project_lat orig conv tl.y) (project_lon orig conv tl.x)
      acc cands none with _ | ⟨b, d⟩
  · exact Or.inl rfl
  · by_cases hlt : d < COORD_MATCH_THRESHOLD_DEG * COORD_MATCH_THRESHOLD_DEG
    · exact Or.inr ⟨b, d, rfl, hlt, by simp [hlt]⟩
    · exact Or.inl (by simp [hlt])

/-- The outer loop preserves distinctness of the map's keys: an appended
key was reported unmatched by `find_best`, hence absent from the map. -/
theorem match_one_keys_nodup (orig conv : Boundary) (cands : List Intersection)
    (acc : List (String × String)) (tl : SumoTL)
    (h : (acc.map Prod.fst).Nodup) :
    ((match_one orig conv cands acc tl).map Prod.fst).Nodup := by
  rcases match_one_eq_or orig conv cands acc tl with heq | ⟨b, d, hf, -, heq⟩
  · rw [heq]; exact h
  · rw [heq]
    rcases find_best_sound _ _ acc cands none (b, d) hf with hc | ⟨-, hkey, -⟩
    · simp at hc
    · have hnot : b.id ∉ acc.map Prod.fst := (key_mem_false_iff _ _).mp hkey
      rw [List.map_append]
      refine h.append (List.nodup_singleton _) ?_
      intro x hx hx'
      simp only [List.map_cons, List.map_nil, List.mem_singleton] at hx'
      subst hx'
      exact hnot hx

/-- Keys of the produced mapping are pairwise distinct, for any inputs. -/
theorem match_keys_nodup (ints : List Intersection) (tls : List SumoTL)
    (orig conv : Boundary) :
    ((match_osm_to_sumo_traffic_lights ints tls orig conv).map Prod.fst).Nodup := by
  unfold match_osm_to_sumo_traffic_lights
  have haux : ∀ (tls' : List SumoTL) (acc : List (String × String)),
      (acc.map Prod.fst).Nodup →
      ((tls'.foldl (match_one orig conv (ints.filter (·.has_traffic_light))) acc).map
          Prod.fst).Nodup := by
    intro tls'
    induction tls' with
    | nil => intro acc h; exact h
    | cons tl tls' ih =>
        intro acc h
        exact ih _ (match_one_keys_nodup orig conv _ acc tl h)
  exact haux tls [] (by simp)

/-- The value column of the final map extends the accumulator's value
column by a sublist of the processed traffic-light ids (each light
contributes at most one value, its own id). -/
theorem match_foldl_values (orig conv : Boundary) (cands : List Intersection) :
    ∀ (tls : List SumoTL) (acc : List (String × String)),
      ∃ rest, (tls.foldl (match_one orig conv cands) acc).map Prod.snd
          = acc.map Prod.snd ++ rest ∧ rest.Sublist (tls.map SumoTL.id) := by
  intro tls
  induction tls with
  | nil => intro acc; exact ⟨[], by simp, by simp⟩
  | cons tl tls ih =>
      intro acc
      rw [List.foldl_cons]
      rcases match_one_eq_or orig conv cands acc tl with heq | ⟨b, d, -, -, heq⟩
      · rw [heq]
        obtain ⟨rest, hval, hsub⟩ := ih acc
        refine ⟨rest, hval, hsub.trans ?_⟩
        simp only [List.map_cons]
        exact List.sublist_cons_self _ _
      · rw [heq]
        obtain ⟨rest, hval, hsub⟩ := ih (acc ++ [(b.id, tl.id)])
        refine ⟨tl.id :: rest, ?_, ?_⟩
        · rw [hval]; simp
        · simp only [List.map_cons]
          exact hsub.cons₂ _

/-- Values of the produced mapping are pairwise distinct whenever the
simulation traffic-light ids are. -/
theorem match_values_nodup (ints : List Intersection) (tls : List SumoTL)
    (orig conv : Boundary) (h : (tls.map SumoTL.id).Nodup) :
    ((match_osm_to_sumo_traffic_lights ints tls orig conv).map Prod.snd).Nodup := by
  unfold match_osm_to_sumo_traffic_lights
  obtain ⟨rest, hval, hsub⟩ :=
    match_foldl_values orig conv (ints.filter (·.has_traffic_light)) tls []
  rw [hval]
  simp only [List.map_nil, List.nil_append]
  exact List.Nodup.sublist hsub h

/-- Every pair of the produced mapping pairs a candidate intersection with
a listed traffic light whose projected point lies strictly within the
(squared) matching threshold of the intersection. -/
theorem match_pairs_sound (orig conv : Boundary) (cands : List Intersection) :
    ∀ (tls : List SumoTL) (acc : List (String × String)) (p : String × String),
      p ∈ tls.foldl (match_one orig conv cands) acc →
      p ∈ acc ∨ ∃ tl ∈ tls, ∃ b ∈ cands,
        dist_sq b.lat b.lon (project_lat orig conv tl.y) (project_lon orig conv tl.x)
          < COORD_MATCH_THRESHOLD_DEG * COORD_MATCH_THRESHOLD_DEG ∧
        p = (b.id, tl.id) := by
  intro tls
  induction tls with
  | nil => intro acc p hp; exact Or.inl hp
  | cons tl tls ih =>
      intro acc p hp
      rw [List.foldl_cons] at hp
      rcases match_one_eq_or orig conv cands acc tl with heq | ⟨b, d, hf, hlt, heq⟩
      · rw [heq] at hp
        rcases ih acc p hp with h | ⟨tl', htl', b', hb', hlt', hpe⟩
        · exact Or.inl h
        · exact Or.inr ⟨tl', List.mem_cons_of_mem _ htl', b', hb', hlt', hpe⟩
      · rw [heq] at hp
        rcases ih _ p hp with h | ⟨tl', htl', b', hb', hlt', hpe⟩
        · rcases List.mem_append.mp h with h' | h'
          · exact Or.inl h'
          · have hps : p = (b.id, tl.id) := by simpa using h'
            rcases find_best_sound _ _ acc cands none (b, d) hf with hc | ⟨hb, -, hd⟩
            · simp at hc
            · refine Or.inr ⟨tl, List.mem_cons_self _ _, b, hb, ?_, hps⟩
              simp only at hd
              rw [← hd]
              exact hlt
        · exact Or.inr ⟨tl', List.mem_cons_of_mem _ htl', b', hb', hlt', hpe⟩

/-- C4 (amended): for every input, no two simulation traffic lights are
assigned the same source intersection — the mapping's keys are pairwise
distinct; and provided the listed simulation traffic-light ids are
pairwise distinct (as when they come from the engine's id listing), no
simulation traffic-light id appears twice among the values: injectivity in
both directions. -/
theorem matching_injective_amended (ints : List Intersection)
    (tls : List SumoTL) (orig conv : Boundary) :
    ((match_osm_to_sumo_traffic_lights ints tls orig conv).map Prod.fst).Nodup ∧
    ((tls.map SumoTL.id).Nodup →
      ((match_osm_to_sumo_traffic_lights ints tls orig conv).map Prod.snd).Nodup) :=
  ⟨match_keys_nodup ints tls orig conv,
   fun h => match_values_nodup ints tls orig conv h⟩

/-- C4 witness: both directions at a concrete one-candidate, two-light
input with distinct light ids. -/
theorem matching_injective_amended_witness :
    ((match_osm_to_sumo_traffic_lights
        [⟨"a", 0, 0, true⟩]
        [⟨"tlA", 0, 0⟩, ⟨"tlB", 100, 0⟩]
        ⟨0, 0, 1, 1⟩ ⟨0, 0, 1000, 1000⟩).map Prod.fst).Nodup ∧
    ((match_osm_to_sumo_traffic_lights
        [⟨"a", 0, 0, true⟩]
        [⟨"tlA", 0, 0⟩, ⟨"tlB", 100, 0⟩]
        ⟨0, 0, 1, 1⟩ ⟨0, 0, 1000, 1000⟩).map Prod.snd).Nodup :=
  ⟨(matching_injective_amended _ _ _ _).1,
   (matching_injective_amended _ _ _ _).2 (by decide)⟩

/-- C4 counterexample input: the traffic-light list may carry the same id
twice (`parse_sumo_traffic_lights` emits one record per `tlLogic` element,
and a SUMO network stores one `tlLogic` per signal program, so one light
can be listed once per program).  With boundary scale 0.001°/unit, the
first `"tl"` record projects onto candidate `"a"` and the second onto
`"b"`; both are accepted, so the single simulation light id `"tl"` is
assigned to two source intersections — the value column is not
duplicate-free, refuting the claim quantified over every list. -/
theorem matching_duplicate_tl_id_cex :
    match_osm_to_sumo_traffic_lights
        [⟨"a", 0, 0, true⟩, ⟨"b", 0, 1/10, true⟩]
        [⟨"tl", 0, 0⟩, ⟨"tl", 100, 0⟩]
        ⟨0, 0, 1, 1⟩ ⟨0, 0, 1000, 1000⟩ = [("a", "tl"), ("b", "tl")] ∧
    ¬ (([(("a" : String), ("tl" : String)), ("b", "tl")].map Prod.snd).Nodup) := by
  constructor
  · have hab : ¬(("a" : String) = "b") := by decide
    norm_num [match_osm_to_sumo_traffic_lights, match_one, find_best, key_mem,
      project_lat, project_lon, lat_scale, lon_scale, dist_sq,
      COORD_MATCH_THRESHOLD_DEG, hab]
  · decide

/-- C5 (amended): each simulation traffic light is matched to the nearest
still-unmatched candidate flagged as signalised (squared-distance
minimality, earlier candidate winning ties), and a pair enters the mapping
only when the plain Euclidean distance is strictly below the 0.001°
threshold — equivalently the squared distance is below `0.001 * 0.001`,
not below 0.001; the claim's two concrete scenarios behave as it states. -/
theorem matching_nearest_threshold_amended :
    (∀ (alat alon : ℚ) (matched : List (String × String))
        (cands : List Intersection) (b : Intersection) (d : ℚ),
      find_best alat alon matched cands none = some (b, d) →
      b ∈ cands ∧ key_mem b.id matched = false ∧
      d = dist_sq b.lat b.lon alat alon ∧
      ∀ i ∈ cands, key_mem i.id matched = false →
        d ≤ dist_sq i.lat i.lon alat alon) ∧
    (∀ (ints : List Intersection) (tls : List SumoTL) (orig conv : Boundary)
        (p : String × String),
      p ∈ match_osm_to_sumo_traffic_lights ints tls orig conv →
      ∃ tl ∈ tls, ∃ b ∈ ints.filter (·.has_traffic_light),
        dist_sq b.lat b.lon (project_lat orig conv tl.y)
            (project_lon orig conv tl.x)
          < COORD_MATCH_THRESHOLD_DEG * COORD_MATCH_THRESHOLD_DEG ∧
        p = (b.id, tl.id)) ∧
    match_osm_to_sumo_traffic_lights [⟨"c", 1/2, 1/2, true⟩]
        [⟨"tl", 500, 500⟩] ⟨0, 0, 1, 1⟩ ⟨0, 0, 1000, 1000⟩ =
      [("c", "tl")] ∧
    match_osm_to_sumo_traffic_lights [⟨"c2", 1/2, 3/5, true⟩]
        [⟨"tl", 500, 500⟩] ⟨0, 0, 1, 1⟩ ⟨0, 0, 1000, 1000⟩ = [] := by
  refine ⟨?_, ?_, ?_, ?_⟩
  · intro alat alon matched cands b d hf
    rcases find_best_sound alat alon matched cands none (b, d) hf
      with hc | ⟨hb, hkey, hd⟩
    · simp at hc
    · obtain ⟨hmin, -⟩ := find_best_min alat alon matched cands none (b, d) hf
      exact ⟨hb, hkey, hd, hmin⟩
  · intro ints tls orig conv p hp
    unfold match_osm_to_sumo_traffic_lights at hp
    rcases match_pairs_sound orig conv _ tls [] p hp with h | h
    · simp at h
    · exact h
  · norm_num [match_osm_to_sumo_traffic_lights, match_one, find_best, key_mem,
      project_lat, project_lon, lat_scale, lon_scale, dist_sq,
      COORD_MATCH_THRESHOLD_DEG]
  · norm_num [match_osm_to_sumo_traffic_lights, match_one, find_best, key_mem,
      project_lat, project_lon, lat_scale, lon_scale, dist_sq,
      COORD_MATCH_THRESHOLD_DEG]

/-- C5 counterexample input: a candidate at squared distance `1/10000`
from the projected light.  Under the claim's reading — squared Euclidean
distance accepted when strictly below the 0.001° threshold — this light
must be matched (`1/10000 < 1/1000`); the code compares the *unsquared*
distance `1/100` against `0.001` and leaves the light unmapped. -/
theorem matching_threshold_squared_cex :
    dist_sq (1/2) (51/100) (1/2) (1/2) < COORD_MATCH_THRESHOLD_DEG ∧
    match_osm_to_sumo_traffic_lights [⟨"c", 1/2, 51/100, true⟩]
        [⟨"tl", 500, 500⟩] ⟨0, 0, 1, 1⟩ ⟨0, 0, 1000, 1000⟩ = [] := by
  constructor
  · norm_num [dist_sq, COORD_MATCH_THRESHOLD_DEG]
  · norm_num [match_osm_to_sumo_traffic_lights, match_one, find_best, key_mem,
      project_lat, project_lon, lat_scale, lon_scale, dist_sq,
      COORD_MATCH_THRESHOLD_DEG]

/-- C5 witness: the nearest-candidate conjunct applied to a concrete
`find_best` run, and the threshold-soundness conjunct applied to the
concrete matched pair of the claim's scenario. -/
theorem matching_nearest_threshold_amended_witness :
    ((⟨"a", 0, 0, true⟩ : Intersection) ∈ [(⟨"a", 0, 0, true⟩ : Intersection)] ∧
      key_mem (Intersection.id ⟨"a", 0, 0, true⟩) [] = false ∧
      (0 : ℚ) = dist_sq (Intersection.lat ⟨"a", 0, 0, true⟩)
        (Intersection.lon ⟨"a", 0, 0, true⟩) 0 0 ∧
      ∀ i ∈ [(⟨"a", 0, 0, true⟩ : Intersection)], key_mem i.id [] = false →
        (0 : ℚ) ≤ dist_sq i.lat i.lon 0 0) ∧
    (∃ tl ∈ [(⟨"tl", 500, 500⟩ : SumoTL)],
      ∃ b ∈ ([(⟨"c", 1/2, 1/2, true⟩ : Intersection)].filter (·.has_traffic_light)),
        dist_sq b.lat b.lon
            (project_lat ⟨0, 0, 1, 1⟩ ⟨0, 0, 1000, 1000⟩ tl.y)
            (project_lon ⟨0, 0, 1, 1⟩ ⟨0, 0, 1000, 1000⟩ tl.x)
          < COORD_MATCH_THRESHOLD_DEG * COORD_MATCH_THRESHOLD_DEG ∧
        (("c", "tl") : String × String) = (b.id, tl.id)) := by
  constructor
  · exact matching_nearest_threshold_amended.1 0 0 [] _ ⟨"a", 0, 0, true⟩ 0
      (by norm_num [find_best, key_mem, dist_sq])
  · exact matching_nearest_threshold_amended.2.1
      [⟨"c", 1/2, 1/2, true⟩] [⟨"tl", 500, 500⟩] ⟨0, 0, 1, 1⟩ ⟨0, 0, 1000, 1000⟩
      ("c", "tl")
      (by rw [matching_nearest_threshold_amended.2.2.1]; simp)

/-- The `DeployedModel` dataclass of `deployment_service.py`. -/
structure DeployedModel where
  tl_id : String
  model_id : String
  model_path : String
  network_id : String
  ai_control_enabled : Bool
  controlled_lanes : List String
  num_phases : Nat
  deriving Repr, DecidableEq

/-- The state guarded by `DeploymentServiceState._lock`: the
`tl_id → DeployedModel` dict (insertion-ordered association list with
unique keys), plus whether `ml_service` currently holds a loaded model. -/
structure DeploymentState where
  deployments : List (String × DeployedModel)
  model_loaded : Bool
  deriving Repr, DecidableEq

/-- Python dict lookup `_state._deployments.get(tl_id)` /
`tl_id in _state._deployments` over the association-list model. -/
def dict_get : List (String × DeployedModel) → String → Option DeployedModel
  | [], _ => none
  | p :: rest, k => if p.1 == k then some p.2 else dict_get rest k

/-- The `RuntimeError`s raised by the deployment service. -/
inductive DepError where
  | alreadyControlled
  | noDeployedModel
  deriving Repr, DecidableEq

/-- The sidecar `.metadata.json` descriptor, when present: each field is
read with a default (`metadata.get("network_id", "unknown")`, etc.). -/
structure ModelMetadata where
  network_id : Option String
  controlled_lanes : Option (List String)
  num_phases : Option Nat
  deriving Repr, DecidableEq

/-- `deploy_model(model_path, tl_id)` from `deployment_service.py`:
conflict if the light already has a deployment; else read the descriptor
(defaults `"unknown"`, `[]`, `4`), load the model into the shared slot
(`ml_service.load_model` ⇒ `model_loaded := true`), and register with
`ai_control_enabled=True`.  `model_id` is `Path(model_path).stem`, passed
explicitly here. -/
def deploy_model (metadata : Option ModelMetadata)
    (model_path model_id tl_id : String) (st : DeploymentState) :
    DeploymentState × Except DepError Unit :=
  match dict_get st.deployments tl_id with
  | some _ => (st, .error .alreadyControlled)
  | none =>
      let network_id := (metadata.bind (·.network_id)).getD "unknown"
      let controlled_lanes := (metadata.bind (·.controlled_lanes)).getD []
      let num_phases := (metadata.bind (·.num_phases)).getD 4
      let d : DeployedModel :=
        { tl_id := tl_id, model_id := model_id, model_path := model_path,
          network_id := network_id, ai_control_enabled := true,
          controlled_lanes := controlled_lanes, num_phases := num_phases }
      ({ deployments := st.deployments ++ [(tl_id, d)], model_loaded := true },
       .ok ())

/-- `undeploy_model(tl_id)`: not-found error if absent; removes the entry
(`pop`); unloads the shared model slot when no deployments remain. -/
def undeploy_model (tl_id : String) (st : DeploymentState) :
    DeploymentState × Except DepError Unit :=
  match dict_get st.deployments tl_id with
  | none => (st, .error .noDeployedModel)
  | some _ =>
      let deps := st.deployments.filter (fun p => !(p.1 == tl_id))
      ({ deployments := deps,
         model_loaded := if deps.isEmpty then false else st.model_loaded },
       .ok ())

/-- `toggle_ai_control(tl_id, enabled)`: not-found error if absent; else
flips the entry's `ai_control_enabled` flag in place. -/
def toggle_ai_control (tl_id : String) (enabled : Bool) (st : DeploymentState) :
    DeploymentState × Except DepError Unit :=
  match dict_get st.deployments tl_id with
  | none => (st, .error .noDeployedModel)
  | some _ =>
      ({ st with deployments := st.deployments.map (fun p =>
          if p.1 == tl_id then (p.1, { p.2 with ai_control_enabled := enabled })
          else p) },
       .ok ())

/-- `is_ai_controlling(tl_id)`: true iff a deployment exists for `tl_id`
and its `ai_control_enabled` flag is set. -/
def is_ai_controlling (st : DeploymentState) (tl_id : String) : Bool :=
  match dict_get st.deployments tl_id with
  | none => false
  | some d => d.ai_control_enabled

/-- `clear_deployments()`: empties the registry and unloads the model.
Its only call sites in the repository are its own definition — no
simulation lifecycle operation invokes it. -/
def clear_deployments (st : DeploymentState) : DeploymentState :=
  let _ := st
  { deployments := [], model_loaded := false }

/-- The pair of engine queries made for one controlled lane inside
`get_observation_for_tl` (and `TrafficLightEnv._get_observation`):
`getLastStepHaltingNumber`, then `getLastStepVehicleIDs` plus the summed
`getWaitingTime` calls.  `none` marks a raised exception. -/
structure LaneQuery where
  halting : Option ℚ
  wait_sum : Option ℚ
  deriving Repr, DecidableEq

/-- Oracle for `get_observation_for_tl`: engine availability, the per-lane
query outcomes, and what `trafficlight.getPhase` returns (`none`: raises). -/
structure ObsEnv where
  sumo_available : Bool
  lane : String → LaneQuery
  phase : String → Option Nat

/-- The per-lane `try/except` of `get_observation_for_tl`: the entries each
lane appends to `(queue_lengths, waiting_times)`.  If the halting-number
query raises, the `except` block appends `0.0` to both lists.  If it
succeeds — its value already appended — and the waiting-time query then
raises, the same `except` block runs and appends `0.0` to *both* lists
again, so `queue_lengths` receives two entries for that lane. -/
def lane_entries (q : LaneQuery) : List ℚ × List ℚ :=
  match q.halting with
  | none => ([0], [0])
  | some h =>
      match q.wait_sum with
      | some w => ([h], [w])
      | none => ([h, 0], [0])

/-- `phase_one_hot`: a zero vector of dimension `num_phases` with a `1.0`
at `current_phase` when `0 <= current_phase < num_phases`. -/
def one_hot (num_phases current_phase : Nat) : List ℚ :=
  (List.range num_phases).map (fun i => if i = current_phase then 1 else 0)

/-- `get_observation_for_tl(tl_id)` from `deployment_service.py`: raises if
the light has no deployment; returns a zero vector of length
`2 * len(controlled_lanes) + num_phases` when the engine is unavailable;
otherwise concatenates the per-lane queue lengths, the per-lane waiting
times and the one-hot phase (`getPhase` failures fall back to phase 0). -/
def get_observation_for_tl (env : ObsEnv) (st : DeploymentState)
    (tl_id : String) : Except DepError (List ℚ) :=
  match dict_get st.deployments tl_id with
  | none => .error .noDeployedModel
  | some d =>
      if !env.sumo_available then
        .ok (List.replicate (d.controlled_lanes.length * 2 + d.num_phases) 0)
      else
        let queue_lengths :=
          (d.controlled_lanes.map (fun l => (lane_entries (env.lane l)).1)).flatten
        let waiting_times :=
          (d.controlled_lanes.map (fun l => (lane_entries (env.lane l)).2)).flatten
        let current_phase := (env.phase tl_id).getD 0
        .ok (queue_lengths ++ waiting_times ++ one_hot d.num_phases current_phase)

/-- C7: evaluation at the failing input.  One deployed light with a single
controlled lane (`num_phases = 4`): the lane's halting-number query
succeeds (3 halting vehicles) but its vehicle-ids query raises.  The
`except` block re-appends `0.0` to `queue_lengths`, so the observation is
the 7-entry vector `[3, 0, 0, 1, 0, 0, 0]` instead of a vector of length
`2 * 1 + 4 = 6`, and the wait/phase segments are shifted by one.  When the
failure instead hits the halting-number query itself (second conjunct),
the vector has the documented length 6 with the lane zeroed. -/
theorem observation_double_append_at_failing_input :
    get_observation_for_tl
        { sumo_available := true,
          lane := fun _ => { halting := some 3, wait_sum := none },
          phase := fun _ => some 0 }
        { deployments :=
            [("tlX", ⟨"tlX", "m", "m.zip", "net", true, ["L"], 4⟩)],
          model_loaded := true }
        "tlX" = .ok [3, 0, 0, 1, 0, 0, 0] ∧
    ([(3 : ℚ), 0, 0, 1, 0, 0, 0].length ≠ 2 * ["L"].length + 4) ∧
    get_observation_for_tl
        { sumo_available := true,
          lane := fun _ => { halting := none, wait_sum := none },
          phase := fun _ => some 0 }
        { deployments :=
            [("tlX", ⟨"tlX", "m", "m.zip", "net", true, ["L"], 4⟩)],
          model_loaded := true }
        "tlX" = .ok [0, 0, 1, 0, 0, 0] := by
  refine ⟨rfl, by decide, rfl⟩

/-- The HTTP outcomes of `POST /control/traffic-lights/{tl_id}/phase`. -/
inductive ControlOutcome where
  | conflict
  | okInfo (tl_id : String) (phase : Nat)
  | notFound
  | badRequest
  deriving Repr, DecidableEq

/-- `set_traffic_light_phase` from `api/routes/control.py`: reject with
409 `AI_CONTROL_ACTIVE` when `deployment_service.is_ai_controlling(tl_id)`
— before any engine call; otherwise forward to
`sumo_service.set_traffic_light_phase` (400 on `RuntimeError`) and read
the light back (`tl_found` is whether `get_traffic_light` finds it; 404
otherwise).  The second component records whether
`sumo_service.set_traffic_light_phase` was invoked. -/
def set_traffic_light_phase_route (dep : DeploymentState) (sim : SimState)
    (penv : PhaseEnv) (tl_found : Bool) (tl_id : String) (phase : Nat) :
    ControlOutcome × Bool :=
  if is_ai_controlling dep tl_id then (.conflict, false)
  else
    match set_traffic_light_phase penv sim tl_id phase with
    | (_, Except.ok r) =>
        if tl_found then (.okInfo r.tl_id r.phase, true) else (.notFound, true)
    | (_, Except.error _) => (.badRequest, true)

/-- A toggled entry is still found, with its flag set to the new value. -/
theorem dict_get_toggle (deps : List (String × DeployedModel)) (tl : String)
    (enabled : Bool) (d : DeployedModel) (h : dict_get deps tl = some d) :
    dict_get (deps.map (fun p =>
        if p.1 == tl then (p.1, { p.2 with ai_control_enabled := enabled })
        else p)) tl
      = some { d with ai_control_enabled := enabled } := by
  induction deps with
  | nil => simp [dict_get] at h
  | cons p rest ih =>
      rw [dict_get] at h
      simp only [List.map_cons]
      by_cases hp : (p.1 == tl) = true
      · rw [if_pos hp] at h
        injection h with h2
        rw [if_pos hp, dict_get, if_pos]
        · rw [h2]
        · exact hp
      · rw [if_neg hp] at h
        rw [if_neg hp, dict_get, if_neg]
        · exact ih h
        · exact hp

/-- C6: `is_ai_controlling(tl_id)` holds exactly when a deployment exists
for `tl_id` with `ai_control_enabled` set; whenever it holds, the manual
phase-set route answers 409 Conflict without invoking the engine
phase-set; and after `toggle_ai_control(tl_id, False)` the predicate is
false, so the same manual request passes the veto and the engine
phase-set is invoked. -/
theorem arbitration_veto :
    (∀ (dep : DeploymentState) (tl_id : String),
      is_ai_controlling dep tl_id = true ↔
        ∃ d, dict_get dep.deployments tl_id = some d ∧
          d.ai_control_enabled = true) ∧
    (∀ (dep : DeploymentState) (sim : SimState) (penv : PhaseEnv)
        (tl_found : Bool) (tl_id : String) (phase : Nat),
      is_ai_controlling dep tl_id = true →
      set_traffic_light_phase_route dep sim penv tl_found tl_id phase =
        (.conflict, false)) ∧
    (∀ (dep dep' : DeploymentState) (tl_id : String) (d : DeployedModel)
        (r : Unit),
      dict_get dep.deployments tl_id = some d →
      toggle_ai_control tl_id false dep = (dep', Except.ok r) →
      is_ai_controlling dep' tl_id = false ∧
      ∀ (sim : SimState) (penv : PhaseEnv) (tl_found : Bool) (phase : Nat),
        (set_traffic_light_phase_route dep' sim penv tl_found tl_id phase).1 ≠
          ControlOutcome.conflict ∧
        (set_traffic_light_phase_route dep' sim penv tl_found tl_id phase).2 =
          true) := by
  refine ⟨?_, ?_, ?_⟩
  · intro dep tl_id
    cases h : dict_get dep.deployments tl_id with
    | none => simp [is_ai_controlling, h]
    | some d => simp [is_ai_controlling, h]
  · intro dep sim penv tl_found tl_id phase h
    simp [set_traffic_light_phase_route, h]
  · intro dep dep' tl_id d r h htog
    simp only [toggle_ai_control, h] at htog
    have hdep' : dep' = { dep with deployments := dep.deployments.map (fun p =>
        if p.1 == tl_id then (p.1, { p.2 with ai_control_enabled := false })
        else p) } := (congrArg Prod.fst htog).symm
    have hget := dict_get_toggle dep.deployments tl_id false d h
    have hctl : is_ai_controlling dep' tl_id = false := by
      rw [hdep']
      simp only [is_ai_controlling]
      rw [hget]
    refine ⟨hctl, ?_⟩
    intro sim penv tl_found phase
    rcases hsp : set_traffic_light_phase penv sim tl_id phase with ⟨s', rr⟩
    cases rr with
    | ok pr =>
        by_cases hf : tl_found <;>
          simp [set_traffic_light_phase_route, hctl, hsp, hf]
    | error e => simp [set_traffic_light_phase_route, hctl, hsp]

/-- C6 witness: the three conjuncts at a concrete one-entry registry. -/
theorem arbitration_veto_witness :
    (is_ai_controlling
        { deployments := [("tlX", ⟨"tlX", "m", "m.zip", "net", true, [], 4⟩)],
          model_loaded := true } "tlX" = true ↔
      ∃ d, dict_get [("tlX", ⟨"tlX", "m", "m.zip", "net", true, [], 4⟩)] "tlX"
          = some d ∧ d.ai_control_enabled = true) ∧
    set_traffic_light_phase_route
        { deployments := [("tlX", ⟨"tlX", "m", "m.zip", "net", true, [], 4⟩)],
          model_loaded := true }
        SimState.init ⟨true, true, 2⟩ true "tlX" 2 = (.conflict, false) ∧
    is_ai_controlling
        { deployments := [("tlX", ⟨"tlX", "m", "m.zip", "net", false, [], 4⟩)],
          model_loaded := true } "tlX" = false := by
  refine ⟨arbitration_veto.1 _ "tlX", arbitration_veto.2.1 _ _ _ _ _ 2 rfl, ?_⟩
  exact (arbitration_veto.2.2
      { deployments := [("tlX", ⟨"tlX", "m", "m.zip", "net", true, [], 4⟩)],
        model_loaded := true }
      { deployments := [("tlX", ⟨"tlX", "m", "m.zip", "net", false, [], 4⟩)],
        model_loaded := true }
      "tlX" ⟨"tlX", "m", "m.zip", "net", true, [], 4⟩ () rfl rfl).1

/-- The two independently guarded mutable states of the process: the
simulation controller's `SimulationState` and the deployment registry. -/
structure SystemState where
  sim : SimState
  dep : DeploymentState
  deriving Repr, DecidableEq

/-- Every mutating operation of the two services, packaged with its engine
oracle.  The simulation lifecycle operations (`sim*`) are the bodies of
`sumo_service.py`, which reference only `sumo_service._state`; the registry
operations (`dep*`) are the bodies of `deployment_service.py`. -/
inductive SysOp where
  | simStart (env : StartEnv) (network_path network_id : String) (gui : Bool)
  | simStep (env : StepEnv)
  | simPause
  | simResume
  | simStop (close_raises : Bool)
  | simSetPhase (env : PhaseEnv) (tl_id : String) (phase_index : Nat)
  | depDeploy (metadata : Option ModelMetadata)
      (model_path model_id tl_id : String)
  | depUndeploy (tl_id : String)
  | depToggle (tl_id : String) (enabled : Bool)
  | depClear

/-- The state each operation leaves behind.  Each simulation lifecycle
operation updates only the `sim` component (its source touches only
`sumo_service._state`); each registry operation updates only `dep`. -/
def SysOp.exec : SysOp → SystemState → SystemState
  | .simStart env np nid gui, st =>
      { st with sim := (start_simulation env st.sim np nid gui).1 }
  | .simStep env, st => { st with sim := (step env st.sim).1 }
  | .simPause, st => { st with sim := (pause_simulation st.sim).1 }
  | .simResume, st => { st with sim := (resume_simulation st.sim).1 }
  | .simStop cr, st => { st with sim := (stop_simulation cr st.sim).1 }
  | .simSetPhase env tl ph, st =>
      { st with sim := (set_traffic_light_phase env st.sim tl ph).1 }
  | .depDeploy m mp mid tl, st =>
      { st with dep := (deploy_model m mp mid tl st.dep).1 }
  | .depUndeploy tl, st => { st with dep := (undeploy_model tl st.dep).1 }
  | .depToggle tl en, st => { st with dep := (toggle_ai_control tl en st.dep).1 }
  | .depClear, st => { st with dep := clear_deployments st.dep }

/-- Whether an operation belongs to the simulation lifecycle
(start/step/pause/resume/stop/set-phase). -/
def SysOp.is_lifecycle : SysOp → Bool
  | .simStart _ _ _ _ => true
  | .simStep _ => true
  | .simPause => true
  | .simResume => true
  | .simStop _ => true
  | .simSetPhase _ _ _ => true
  | .depDeploy _ _ _ _ => false
  | .depUndeploy _ => false
  | .depToggle _ _ => false
  | .depClear => false

/-- C10: no simulation lifecycle operation — in particular
`stop_simulation()` — modifies the deployment registry: every registered
Deployment, its `ai_control_enabled` flag and the loaded-model slot are
exactly as before (`clear_deployments` exists but is called by no
lifecycle operation); hence deployments persist unchanged across a
`stop()` followed by a fresh `start()`. -/
theorem lifecycle_preserves_deployments :
    (∀ (op : SysOp) (st : SystemState), op.is_lifecycle = true →
      (op.exec st).dep = st.dep) ∧
    (∀ (st : SystemState) (cr : Bool) (env : StartEnv)
        (np nid : String) (gui : Bool),
      ((SysOp.simStart env np nid gui).exec ((SysOp.simStop cr).exec st)).dep
        = st.dep) := by
  constructor
  · intro op st h
    cases op <;> first
      | rfl
      | simp [SysOp.is_lifecycle] at h
  · intro st cr env np nid gui
    rfl

/-- C10 witness: `stop()` then `start()` on a concrete system state with
one deployment leaves the registry (flag and loaded model included)
intact. -/
theorem lifecycle_preserves_deployments_witness :
    (((SysOp.simStop true).exec
        ⟨⟨true, false, 5, some "n", some "p"⟩,
         { deployments := [("tlX", ⟨"tlX", "m", "m.zip", "net", true, ["L"], 4⟩)],
           model_loaded := true }⟩).dep =
      { deployments := [("tlX", ⟨"tlX", "m", "m.zip", "net", true, ["L"], 4⟩)],
        model_loaded := true }) ∧
    (((SysOp.simStart ⟨true, true, true⟩ "p" "n" false).exec
        ((SysOp.simStop true).exec
          ⟨⟨true, false, 5, some "n", some "p"⟩,
           { deployments := [("tlX", ⟨"tlX", "m", "m.zip", "net", true, ["L"], 4⟩)],
             model_loaded := true }⟩)).dep =
      { deployments := [("tlX", ⟨"tlX", "m", "m.zip", "net", true, ["L"], 4⟩)],
        model_loaded := true }) :=
  ⟨lifecycle_preserves_deployments.1 (SysOp.simStop true) _ rfl,
   lifecycle_preserves_deployments.2 _ true ⟨true, true, true⟩ "p" "n" false⟩
